import Mathlib

/-!
Verification of the Zanoo landing page (single-file React component,
`src/unnamed/part_000`) against its natural-language specification.

The stateful behaviours of the page — timed rotation controllers, the
scroll-triggered counter, the circular gauge, the lead-capture form with its
delayed revert timer, the image-fallback tile, and the theme toggle — are
shallowly embedded below as pure Lean functions and small event-step machines,
translated from the source component by component.
-/

namespace Zanoo

/-! ## Static content lists (source lines 122-141, 1079-1092, 1172, 1188) -/

/-- A screenshot entry as in `HERO_SHOTS` / `APP_SHOTS`
(`{ id, label, src?, mode? }`). -/
structure Shot where
  id : String
  label : String
  src : Option String := none
  mode : Option String := none
deriving DecidableEq, Repr

/-- `HERO_SHOTS` (source lines 122-125): two screenshots. -/
def HERO_SHOTS : List Shot :=
  [ { id := "inicio", label := "Inicio (Paciente)", src := some "/shots/inicio-paciente.png" },
    { id := "medicos", label := "Mis médicos", src := some "/shots/mis-medicos.png" } ]

/-- `APP_SHOTS` (source lines 127-141): three screenshots. -/
def APP_SHOTS : List Shot :=
  [ { id := "inicio", label := "Inicio (Paciente)", src := some "/shots/inicio-paciente.png",
      mode := some "detail" },
    { id := "turnos", label := "Turnos (Recepción)", src := some "/shots/turnos-recepcion.png",
      mode := some "list" },
    { id := "metricas", label := "Métricas (Dirección)", src := some "/shots/metricas-direccion.png",
      mode := some "metrics" } ]

/-- The hero-phrase list (source line 1188): four phrases. -/
def heroPhrases : List String :=
  ["atender mejor", "cuidar el tiempo", "cuidar a las personas", "hacer más justo el acceso"]

/-- One quote of the `QuoteCarousel` (source lines 1079-1092). -/
structure Quote where
  highlight : String
  text : String
deriving DecidableEq, Repr

/-- The `quotes` list of `QuoteCarousel` (source lines 1079-1092): three quotes.
The long body texts are abbreviated to their openings; only the highlights and
the list length matter to the claims. -/
def quotes : List Quote :=
  [ { highlight := "19M de argentinos", text := "Más de 19 millones de argentinos…" },
    { highlight := "8.000+ centros de salud", text := "En Argentina existen más de 8.000 salitas…" },
    { highlight := "45% abre todo el día", text := "Solo el 45% de los centros…" } ]

/-- The demo-tab list (source line 1172 and 1932):
`["Recepción", "Consultorio", "Dirección"]`. -/
def demoTabs : List String := ["Recepción", "Consultorio", "Dirección"]

/-! ## Rotation controllers (source lines 1096-1101, 1170-1183, 1190-1195)

Each interval callback advances an index by `+1` modulo the list length:

  * quote carousel (period 5000 ms): `setIndex((prev) => (prev + 1) % quotes.length)`;
  * hero phrases (period 3000 ms): `setHeroTextIndex((prev) => (prev + 1) % heroPhrases.length)`;
  * demo tabs (period 4000 ms): the state is the tab *string*;
    the tick computes `tabs[(tabs.indexOf(prev) + 1) % tabs.length]`.
-/

/-- One timer tick of an index-based rotation controller:
`(prev + 1) % len` (source lines 1098 and 1192). -/
def tickIndex (len i : Nat) : Nat := (i + 1) % len

/-- One timer tick of the demo-tab controller (source lines 1176-1180):
`tabs[(tabs.indexOf(prev) + 1) % tabs.length]`. -/
def demoTick (t : String) : String :=
  demoTabs.getD ((demoTabs.indexOf t + 1) % demoTabs.length) "Recepción"

/-- Quote-carousel index after `n` ticks, starting from `useState(0)`
(source line 1094). -/
def quoteTicks (n : Nat) : Nat := (tickIndex quotes.length)^[n] 0

/-- Hero-phrase index after `n` ticks, starting from `useState(0)`
(source line 1187). -/
def heroTextTicks (n : Nat) : Nat := (tickIndex heroPhrases.length)^[n] 0

/-- Demo tab after `n` ticks, starting from `useState("Recepción")`
(source line 1151). -/
def demoTabAfter (n : Nat) : String := demoTick^[n] "Recepción"

/-- An event hitting a rotation controller: a timer tick, or a user selection
of a concrete index (tab button / slider dot `onClick`). -/
inductive RotEvent where
  | tick : RotEvent
  | select : Nat → RotEvent
deriving DecidableEq, Repr

/-- A selection event is in range for a list of length `len`; ticks always are.
Users can only select indices of rendered items (`map` over the list). -/
def rotEvtOk (len : Nat) : RotEvent → Bool
  | RotEvent.tick => true
  | RotEvent.select i => i < len

/-- One step of a rotation controller under a tick or a direct selection. -/
def rotStep (len : Nat) (i : Nat) : RotEvent → Nat
  | RotEvent.tick => tickIndex len i
  | RotEvent.select j => j

/-- Index after an arbitrary interleaving of ticks and selections,
starting from 0. -/
def rotRun (len : Nat) (es : List RotEvent) : Nat := es.foldl (rotStep len) 0

/-! ## Prev/next slider buttons (source lines 1478, 1485, 1667, 1674)

Hero-shot slider: `setHeroIndex((p) => (p === 0 ? HERO_SHOTS.length - 1 : p - 1))`
and `setHeroIndex((p) => (p + 1) % HERO_SHOTS.length)`; the app-shot slider is
identical with `APP_SHOTS`. -/

/-- The previous-button update of the hero-shot slider (source line 1478). -/
def heroPrevFn (p : Nat) : Nat := if p = 0 then HERO_SHOTS.length - 1 else p - 1

/-- The next-button update of the hero-shot slider (source line 1485). -/
def heroNextFn (p : Nat) : Nat := (p + 1) % HERO_SHOTS.length

/-- The previous-button update of the app-shot slider (source line 1667). -/
def shotPrevFn (p : Nat) : Nat := if p = 0 then APP_SHOTS.length - 1 else p - 1

/-- The next-button update of the app-shot slider (source line 1674). -/
def shotNextFn (p : Nat) : Nat := (p + 1) % APP_SHOTS.length

/-! ## The `ZanooLanding` interactive state (source lines 1151-1206)

The component mounts two intervals with empty dependency arrays
(demo-tab auto-play, 4000 ms, lines 1170-1183; hero-phrase rotation, 3000 ms,
lines 1190-1195).  React runs such an effect once on mount and its cleanup
once on unmount, so no state update — in particular no user selection —
re-creates, pauses or re-periods either interval.  The hero-shot and app-shot
sliders have no interval at all: `heroIndex` and `shotIndex` are only updated
by the dot and prev/next button handlers. -/

/-- A live interval: a name identifying its callback and its period in ms. -/
structure Interval where
  name : String
  period : Nat
deriving DecidableEq, Repr

/-- The interactive state of `ZanooLanding` relevant to rotation and sliders. -/
structure LandingState where
  demoTab : String
  heroTextIndex : Nat
  heroIndex : Nat
  shotIndex : Nat
  intervals : List Interval
deriving DecidableEq, Repr

/-- State right after mount: `useState` initial values (lines 1151, 1152, 1185,
1187) and the two intervals installed by the mount-only effects. -/
def landingInit : LandingState :=
  { demoTab := "Recepción", heroTextIndex := 0, heroIndex := 0, shotIndex := 0,
    intervals := [⟨"demoTabAutoPlay", 4000⟩, ⟨"heroTextRotation", 3000⟩] }

/-- The user and timer events of `ZanooLanding`. -/
inductive LandingEvent where
  | demoTabTick : LandingEvent
  | heroTextTick : LandingEvent
  | selectDemoTab : String → LandingEvent
  | selectHeroDot : Nat → LandingEvent
  | heroPrevClick : LandingEvent
  | heroNextClick : LandingEvent
  | shotPrevClick : LandingEvent
  | shotNextClick : LandingEvent
deriving DecidableEq, Repr

/-- One step of `ZanooLanding`: interval callbacks advance their own index,
click handlers call only their `set*` updater (source lines 1176-1180, 1192,
1461, 1478, 1485, 1667, 1674, 1936); none touches `intervals`. -/
def landingStep (s : LandingState) : LandingEvent → LandingState
  | LandingEvent.demoTabTick => { s with demoTab := demoTick s.demoTab }
  | LandingEvent.heroTextTick =>
      { s with heroTextIndex := tickIndex heroPhrases.length s.heroTextIndex }
  | LandingEvent.selectDemoTab t => { s with demoTab := t }
  | LandingEvent.selectHeroDot i => { s with heroIndex := i }
  | LandingEvent.heroPrevClick => { s with heroIndex := heroPrevFn s.heroIndex }
  | LandingEvent.heroNextClick => { s with heroIndex := heroNextFn s.heroIndex }
  | LandingEvent.shotPrevClick => { s with shotIndex := shotPrevFn s.shotIndex }
  | LandingEvent.shotNextClick => { s with shotIndex := shotNextFn s.shotIndex }

/-! ## Lead-capture form (source lines 1199-1206, 1747-1784)

State: `formSent : boolean` (line 1199) and the ref `formTimer` (line 1200).
The submit handler (lines 1765-1784) calls `e.preventDefault()`, collects
`Object.fromEntries(new FormData(form).entries())`, sets `formSent` to `true`
and runs `formTimer.current = window.setTimeout(() => setFormSent(false), 12000)`
— it does NOT clear any previously scheduled timeout.  The "Enviar otra"
button (line 1757) only calls `setFormSent(false)`.  The unmount cleanup
(lines 1202-1206) clears the single timeout id held in `formTimer.current`.

Timeouts are modelled explicitly: `live` is the list of scheduled, not yet
fired, not cancelled timeouts as `(id, fire time)` pairs; `formTimerRef` is
the id stored in the ref (the latest scheduled one); `now` is the clock in
milliseconds. -/

/-- The lead-form machine of `ZanooLanding`. -/
structure FormMachine where
  now : Nat
  formSent : Bool
  formTimerRef : Option Nat
  live : List (Nat × Nat)
  nextId : Nat
  defaultPrevented : Bool
  lastData : Option (List (String × String))
deriving DecidableEq, Repr

/-- Form state on mount: `useState(false)`, `useRef(null)` (lines 1199-1200). -/
def formInit : FormMachine :=
  { now := 0, formSent := false, formTimerRef := none, live := [], nextId := 0,
    defaultPrevented := false, lastData := none }

/-- Events hitting the lead form: a submission carrying the named field values,
the "Enviar otra" click, the passage of `d` ms (firing every timeout that
comes due), and unmount. -/
inductive FormEvent where
  | submit : List (String × String) → FormEvent
  | clickEnviarOtra : FormEvent
  | elapse : Nat → FormEvent
  | unmount : FormEvent

/-- One step of the lead-form machine, translated from the handlers quoted
above.  `submit` prevents default, stores the collected record, sets the sent
flag and schedules a fresh 12000 ms timeout, leaving any older live timeout in
place (exactly as the source does); `elapse d` advances the clock and fires
every due timeout, each firing executing `setFormSent(false)`; `unmount`
cancels only the timeout whose id is held in `formTimer.current`. -/
def formStep (s : FormMachine) : FormEvent → FormMachine
  | FormEvent.submit fields =>
      { s with formSent := true,
               defaultPrevented := true,
               lastData := some fields,
               live := s.live ++ [(s.nextId, s.now + 12000)],
               formTimerRef := some s.nextId,
               nextId := s.nextId + 1 }
  | FormEvent.clickEnviarOtra => { s with formSent := false }
  | FormEvent.elapse d =>
      let t := s.now + d
      let fired := s.live.filter (fun p => p.2 ≤ t)
      { s with now := t,
               formSent := if fired.isEmpty then s.formSent else false,
               live := s.live.filter (fun p => ¬ p.2 ≤ t) }
  | FormEvent.unmount =>
      { s with live := s.live.filter (fun p => s.formTimerRef ≠ some p.1),
               formTimerRef := none }

/-- The lead-form machine after a sequence of events from the mount state. -/
def formRun (es : List FormEvent) : FormMachine := es.foldl formStep formInit

/-! ## `AnimatedCounter` (source lines 59-83)

`value` is `number | string`.  The numeric target is
`typeof value === "string" ? parseFloat(value.replace(/[^0-9.]/g, "")) : value`
(line 66).  `useInView(ref, { once: true, ... })` (line 63) flips to `true` on
the first viewport entry and stays `true` forever; the effect at lines 68-72
runs `motionValue.set(numericValue)` exactly when `isInView` is true and the
effect (re-)runs, i.e. once, at the first entry.  The JSX is
`<span ref={ref}>0{suffix}</span>` (line 82): until the spring ever moves, the
rendered text is the digit 0 followed by the suffix. -/

/-- The `value` prop of `AnimatedCounter`: a number or a string.  Numbers are
modelled as rationals (every numeric literal passed in the page is one). -/
inductive CounterValue where
  | num : ℚ → CounterValue
  | str : String → CounterValue

/-- `value.replace(/[^0-9.]/g, "")`: remove every character that is not a
decimal digit and not a dot (source line 66). -/
def stripToNumeric (s : String) : String :=
  String.mk (s.data.filter (fun c => c.isDigit || c = '.'))

/-- Decimal value of a digit list read most-significant first. -/
def digitsToNat (ds : List Char) : Nat :=
  ds.foldl (fun a c => 10 * a + (c.toNat - 48)) 0

/-- JavaScript `parseFloat`, modelled on the digit/dot alphabet that
`stripToNumeric` produces (the only arguments the component passes): read a
leading run of digits, then optionally a dot and a second run of digits, and
ignore the rest; `none` stands for `NaN`, returned when no digit is read. -/
def parseFloatNum (s : String) : Option ℚ :=
  let intDs := s.data.takeWhile Char.isDigit
  let rest := s.data.drop intDs.length
  let fracDs := if rest.headD ' ' = '.' then rest.tail.takeWhile Char.isDigit else []
  if intDs.isEmpty && fracDs.isEmpty then none
  else some ((digitsToNat intDs : ℚ) + (digitsToNat fracDs : ℚ) / 10 ^ fracDs.length)

/-- `numericValue` (source line 66): strings are stripped then parsed, numbers
pass through unchanged (`none` = `NaN`, which no in-page usage produces). -/
def numericValue : CounterValue → Option ℚ
  | CounterValue.num n => some n
  | CounterValue.str s => parseFloatNum (stripToNumeric s)

/-- The extraction the spec describes, written from its words: "the number
parsed from the input string after removing every character that is not a
digit or a dot", and "for every numeric input the animation target equals the
input itself". -/
def specTargetOf : CounterValue → Option ℚ
  | CounterValue.num n => some n
  | CounterValue.str s =>
      parseFloatNum (String.mk (s.data.filter (fun c => ¬ (¬ c.isDigit ∧ c ≠ '.'))))

/-- The per-instance state of `AnimatedCounter`: whether the one-shot
`useInView(once: true)` has ever reported visibility, the current target of
the motion value, and how many times `motionValue.set` has run. -/
structure CounterState where
  everInView : Bool
  target : ℚ
  setCount : Nat
deriving DecidableEq, Repr

/-- Mount state: not yet in view, `useMotionValue(0)`, no `set` calls. -/
def counterInit : CounterState := { everInView := false, target := 0, setCount := 0 }

/-- A viewport-visibility toggle on the counter's span. -/
inductive VisEvent where
  | enter : VisEvent
  | leave : VisEvent
deriving DecidableEq, Repr

/-- One visibility event.  With `once: true`, `isInView` flips on the first
`enter` and never changes again, so the effect at lines 68-72 fires
`motionValue.set(numericValue)` on that first entry only; later entries and
every leave change nothing. -/
def counterStep (tgt : ℚ) (s : CounterState) : VisEvent → CounterState
  | VisEvent.enter =>
      if s.everInView then s
      else { everInView := true, target := tgt, setCount := s.setCount + 1 }
  | VisEvent.leave => s

/-- Counter state after a sequence of visibility toggles from mount. -/
def counterRun (tgt : ℚ) (es : List VisEvent) : CounterState :=
  es.foldl (counterStep tgt) counterInit

/-- The text of the counter's span: the initial JSX `0{suffix}` until the
motion value has ever been set; afterwards the settled spring shows
`Math.floor(target)` plus the suffix (line 77; every in-page value is below
1000, so `toLocaleString` inserts no separators). -/
def counterText (suffix : String) (s : CounterState) : String :=
  if s.setCount = 0 then "0" ++ suffix
  else toString s.target.floor ++ suffix

/-! ## `CircularMetric` (source lines 426-455)

`radius = 32`, `circumference = 2 * Math.PI * radius`, and
`offset = circumference - (value / 100) * circumference`; the indicator circle
animates `strokeDashoffset` from `circumference` to `offset` with
`strokeDasharray = circumference`.  π is carried as a parameter so every
definition stays exact and executable. -/

/-- `radius` (source line 427). -/
def cmRadius : ℚ := 32

/-- `circumference = 2 * Math.PI * radius` (source line 428), with π abstract. -/
def circumference (pi : ℚ) : ℚ := 2 * pi * cmRadius

/-- `offset = circumference - (value / 100) * circumference` (source line 429). -/
def strokeDashoffset (pi value : ℚ) : ℚ :=
  circumference pi - value / 100 * circumference pi

/-- The filled arc length of the ring: dash array minus dash offset. -/
def filledArc (pi value : ℚ) : ℚ := circumference pi - strokeDashoffset pi value

/-! ## `PhotoTile` (source lines 270-334)

`imgError` starts `false`; `showImage = Boolean(imageSrc) && !imgError`; the
`<img>` carries `onError={() => setImgError(true)}`.  When `showImage` is
false the tile renders the tone-keyed gradient `toneMap[tone]` plus a fixed
procedural radial-gradient texture. -/

/-- The tone variants of `PhotoTile` (source line 278). -/
inductive Tone where
  | blue : Tone
  | violet : Tone
  | amber : Tone
deriving DecidableEq, Repr

/-- `toneMap` (source lines 284-288). -/
def toneMap : Tone → String
  | Tone.blue => "from-slate-900/10 via-blue-900/10 to-cyan-900/10"
  | Tone.violet => "from-slate-900/10 via-purple-900/10 to-fuchsia-900/10"
  | Tone.amber => "from-slate-900/10 via-orange-900/10 to-amber-900/10"

/-- The fixed procedural texture of the placeholder (source lines 309-312). -/
def placeholderTexture : String :=
  "radial-gradient(circle at 20% 10%, rgba(0,0,0,0.14) 0, rgba(0,0,0,0) 45%), " ++
  "radial-gradient(circle at 80% 35%, rgba(0,0,0,0.12) 0, rgba(0,0,0,0) 40%), " ++
  "radial-gradient(circle at 35% 90%, rgba(0,0,0,0.10) 0, rgba(0,0,0,0) 42%)"

/-- The state of one `PhotoTile`: its `imgError` flag (source line 281). -/
structure PhotoTileState where
  imgError : Bool
deriving DecidableEq, Repr

/-- Mount state: `useState(false)` (source line 281). -/
def photoTileInit : PhotoTileState := { imgError := false }

/-- The image's `onError` handler: `setImgError(true)` (source line 300). -/
def photoTileOnError (_s : PhotoTileState) : PhotoTileState := { imgError := true }

/-- What the media region of the tile shows. -/
inductive TileRender where
  | image : String → TileRender
  | placeholder : String → String → TileRender
deriving DecidableEq, Repr

/-- `showImage = Boolean(imageSrc) && !imgError` (source line 282). -/
def showImage (imageSrc : Option String) (s : PhotoTileState) : Bool :=
  imageSrc.isSome && !s.imgError

/-- The tile's media region (source lines 292-317): the image when
`showImage`, otherwise the tone-keyed gradient plus procedural texture. -/
def photoTileRender (imageSrc : Option String) (s : PhotoTileState) (tone : Tone) :
    TileRender :=
  match imageSrc, showImage imageSrc s with
  | some src, true => TileRender.image src
  | _, _ => TileRender.placeholder (toneMap tone) placeholderTexture

/-! ## `ThemeToggle` (source lines 371-421)

`mounted` starts `false` and is set `true` by a mount-only effect; while
`!mounted` the component returns `null`.  Once mounted it renders three
buttons (light / dark / system); each button's active styling is governed by
`theme === "light"`, `theme === "dark"`, `theme === "system"` respectively
(`theme` comes from the external provider and may be undefined). -/

/-- One rendered toggle button: its aria-label, the theme it requests on
click, and whether it carries the active styling. -/
structure ToggleButton where
  ariaLabel : String
  requests : String
  active : Bool
deriving DecidableEq, Repr

/-- The three buttons rendered once mounted (source lines 383-418). -/
def themeToggleButtons (theme : Option String) : List ToggleButton :=
  [ { ariaLabel := "Light Mode", requests := "light", active := theme == some "light" },
    { ariaLabel := "Dark Mode", requests := "dark", active := theme == some "dark" },
    { ariaLabel := "System Mode", requests := "system", active := theme == some "system" } ]

/-- `ThemeToggle`'s render: `null` before mount (line 379), the three buttons
afterwards. -/
def themeToggleRender (mounted : Bool) (theme : Option String) :
    Option (List ToggleButton) :=
  if !mounted then none else some (themeToggleButtons theme)

/-- `ZanooLanding` state after a sequence of events from the mount state. -/
def landingRun (es : List LandingEvent) : LandingState :=
  es.foldl landingStep landingInit

/-! ## Theorems -/

lemma iterate_tickIndex (len : Nat) (n : Nat) :
    (tickIndex len)^[n] 0 = n % len := by
  induction n with
  | zero => rw [Function.iterate_zero_apply, Nat.zero_mod]
  | succ n ih =>
      rw [Function.iterate_succ_apply', ih]
      exact (Nat.mod_modEq n len).add_right 1

lemma demoTabAfter_getD (n : Nat) :
    demoTabAfter n = demoTabs.getD (n % 3) "Recepción" := by
  induction n with
  | zero => rfl
  | succ n ih =>
      have hstep : demoTabAfter (n + 1) = demoTick (demoTabAfter n) :=
        Function.iterate_succ_apply' demoTick n "Recepción"
      rw [hstep, ih]
      have h3 : n % 3 = 0 ∨ n % 3 = 1 ∨ n % 3 = 2 := by omega
      rcases h3 with h | h | h
      · have h4 : (n + 1) % 3 = 1 := by omega
        rw [h, h4]; rfl
      · have h4 : (n + 1) % 3 = 2 := by omega
        rw [h, h4]; rfl
      · have h4 : (n + 1) % 3 = 0 := by omega
        rw [h, h4]; rfl

lemma rotRun_foldl_lt (len : Nat) (h : 0 < len) :
    ∀ (es : List RotEvent) (s : Nat), s < len →
      (∀ e ∈ es, rotEvtOk len e = true) → es.foldl (rotStep len) s < len := by
  intro es
  induction es with
  | nil => intro s hs _; exact hs
  | cons e es ih =>
      intro s hs hok
      rw [List.foldl_cons]
      refine ih (rotStep len s e) ?_ (fun e' he' => hok e' (List.mem_cons_of_mem e he'))
      cases e with
      | tick => exact Nat.mod_lt _ h
      | select j =>
          have hj := hok (RotEvent.select j) (List.mem_cons_self _ _)
          simpa [rotEvtOk] using hj

/-- C2: every rotation controller (quote carousel, hero phrases, demo tabs)
starts at index 0 and after `N` ticks sits at `N mod L` (for the demo tabs,
the position of the current tab string in the tab list); and for any
controller over a non-empty list, under every interleaving of ticks and
in-range user selections the index stays inside `[0, L-1]`. -/
theorem rotation_mod_and_range :
    (∀ n, quoteTicks n = n % quotes.length) ∧
    (∀ n, heroTextTicks n = n % heroPhrases.length) ∧
    (∀ n, demoTabs.indexOf (demoTabAfter n) = n % demoTabs.length) ∧
    (∀ (len : Nat) (es : List RotEvent), 0 < len →
      (∀ e ∈ es, rotEvtOk len e = true) → rotRun len es < len) := by
  refine ⟨fun n => iterate_tickIndex _ n,
          fun n => iterate_tickIndex _ n,
          fun n => ?_,
          fun len es hlen hok => rotRun_foldl_lt len hlen es 0 hlen hok⟩
  rw [demoTabAfter_getD n]
  have h3 : n % 3 = 0 ∨ n % 3 = 1 ∨ n % 3 = 2 := by omega
  have hlen : demoTabs.length = 3 := rfl
  rcases h3 with h | h | h <;> rw [hlen, h] <;> rfl

/-- Witness for C2 at concrete inputs. -/
theorem rotation_mod_and_range_witness :
    quoteTicks 7 = 7 % quotes.length ∧
    rotRun 3 [RotEvent.tick, RotEvent.select 2, RotEvent.tick] < 3 :=
  ⟨rotation_mod_and_range.1 7,
   rotation_mod_and_range.2.2.2 3 [RotEvent.tick, RotEvent.select 2, RotEvent.tick]
     (by decide) (by decide)⟩

/-- C10: for both sliders, the previous-button update equals
`(p + length - 1) % length` on every in-range index (so previous of 0 wraps
to `length - 1`), and the previous- and next-button updates invert each
other. -/
theorem slider_prev_next_inverse :
    ∀ p : Nat,
      (p < HERO_SHOTS.length →
        heroPrevFn p = (p + HERO_SHOTS.length - 1) % HERO_SHOTS.length ∧
        heroNextFn (heroPrevFn p) = p ∧ heroPrevFn (heroNextFn p) = p) ∧
      (p < APP_SHOTS.length →
        shotPrevFn p = (p + APP_SHOTS.length - 1) % APP_SHOTS.length ∧
        shotNextFn (shotPrevFn p) = p ∧ shotPrevFn (shotNextFn p) = p) := by
  intro p
  constructor
  · intro hp
    have h2 : HERO_SHOTS.length = 2 := rfl
    rw [h2] at hp
    interval_cases p <;> exact ⟨rfl, rfl, rfl⟩
  · intro hp
    have h3 : APP_SHOTS.length = 3 := rfl
    rw [h3] at hp
    interval_cases p <;> exact ⟨rfl, rfl, rfl⟩

/-- Witness for C10: previous of 0 wraps to the last index on both sliders. -/
theorem slider_prev_next_inverse_witness :
    heroPrevFn 0 = (0 + HERO_SHOTS.length - 1) % HERO_SHOTS.length ∧
    shotPrevFn 0 = (0 + APP_SHOTS.length - 1) % APP_SHOTS.length :=
  ⟨((slider_prev_next_inverse 0).1 (by decide)).1,
   ((slider_prev_next_inverse 0).2 (by decide)).1⟩

/-- C1 (failing input): the submit handler never clears a previously scheduled
revert timeout — only the unmount cleanup does.  Submitting at t = 0,
pressing "Enviar otra" at t = 1000 and resubmitting leaves TWO live revert
timeouts (due at 12000 and 13000).  The stale one fires at t = 12000, only
11000 ms after the second submission, reverting the fresh confirmation early,
and the second one is still pending after that. -/
theorem formTimer_stale_revert :
    (formRun [FormEvent.submit [], FormEvent.elapse 1000, FormEvent.clickEnviarOtra,
              FormEvent.submit []]).live.length = 2 ∧
    (formRun [FormEvent.submit [], FormEvent.elapse 1000, FormEvent.clickEnviarOtra,
              FormEvent.submit []]).formSent = true ∧
    (formRun [FormEvent.submit [], FormEvent.elapse 1000, FormEvent.clickEnviarOtra,
              FormEvent.submit [], FormEvent.elapse 11000]).formSent = false ∧
    (formRun [FormEvent.submit [], FormEvent.elapse 1000, FormEvent.clickEnviarOtra,
              FormEvent.submit [], FormEvent.elapse 11000]).live.length = 1 := by
  decide

/-- C6: submitting the form from a state with no pending timer prevents the
default navigation, stores the collected field record, flips the sent flag,
schedules exactly one 12000 ms revert, and — absent further interaction —
keeps the confirmation up strictly before 12000 ms and reverts to editable at
12000 ms. -/
theorem form_submit_then_revert :
    ∀ (s : FormMachine) (fields : List (String × String)),
      s.live = [] →
      ((formStep s (FormEvent.submit fields)).defaultPrevented = true ∧
       (formStep s (FormEvent.submit fields)).lastData = some fields ∧
       (formStep s (FormEvent.submit fields)).formSent = true ∧
       (formStep s (FormEvent.submit fields)).live = [(s.nextId, s.now + 12000)]) ∧
      (∀ d, d < 12000 →
        (formStep (formStep s (FormEvent.submit fields)) (FormEvent.elapse d)).formSent
          = true) ∧
      (formStep (formStep s (FormEvent.submit fields)) (FormEvent.elapse 12000)).formSent
        = false ∧
      (formStep (formStep s (FormEvent.submit fields)) (FormEvent.elapse 12000)).live
        = [] := by
  intro s fields hlive
  refine ⟨⟨rfl, rfl, rfl, by simp [formStep, hlive]⟩, ?_, ?_, ?_⟩
  · intro d hd
    have hle : ¬ s.now + 12000 ≤ s.now + d := by omega
    simp [formStep, hlive, hle]
  · simp [formStep, hlive]
  · simp [formStep, hlive]

/-- Witness for C6 at the mount state with a concrete field record. -/
theorem form_submit_then_revert_witness :
    (formStep formInit (FormEvent.submit [("centro", "CAPS San Martin")])).formSent
      = true ∧
    (formStep (formStep formInit (FormEvent.submit [("centro", "CAPS San Martin")]))
      (FormEvent.elapse 12000)).formSent = false :=
  ⟨((form_submit_then_revert formInit [("centro", "CAPS San Martin")] rfl).1).2.2.1,
   (form_submit_then_revert formInit [("centro", "CAPS San Martin")] rfl).2.2.1⟩

lemma counterRun_leaves (tgt : ℚ) :
    ∀ (es : List VisEvent) (s : CounterState),
      (∀ e ∈ es, e = VisEvent.leave) → es.foldl (counterStep tgt) s = s := by
  intro es
  induction es with
  | nil => intro s _; rfl
  | cons e es ih =>
      intro s hall
      have he : e = VisEvent.leave := hall e (List.mem_cons_self _ _)
      subst he
      rw [List.foldl_cons]
      exact ih s (fun e' he' => hall e' (List.mem_cons_of_mem _ he'))

lemma counterRun_setCount_le (tgt : ℚ) :
    ∀ (es : List VisEvent) (s : CounterState),
      (s.everInView = false → s.setCount = 0) → s.setCount ≤ 1 →
      (es.foldl (counterStep tgt) s).setCount ≤ 1 := by
  intro es
  induction es with
  | nil => intro s _ h2; exact h2
  | cons e es ih =>
      intro s h1 h2
      rw [List.foldl_cons]
      cases e with
      | leave => exact ih s h1 h2
      | enter =>
          by_cases hv : s.everInView = true
          · have : counterStep tgt s VisEvent.enter = s := by
              simp [counterStep, hv]
            rw [this]; exact ih s h1 h2
          · have hv' : s.everInView = false := by
              cases hb : s.everInView
              · rfl
              · exact absurd hb hv
            have hc : s.setCount = 0 := h1 hv'
            have : counterStep tgt s VisEvent.enter =
                { everInView := true, target := tgt, setCount := s.setCount + 1 } := by
              simp [counterStep, hv']
            rw [this]
            exact ih _ (by intro hfalse; simp at hfalse) (by simp [hc])

/-- C3: before the first viewport visibility (any sequence of non-entry
visibility events) the counter's span shows exactly `0` followed by the
suffix; the animation is triggered at most once over every event sequence;
and once triggered (the one-shot in-view flag set), no later visibility
toggle changes the counter's state at all. -/
theorem animatedCounter_one_shot :
    (∀ (suffix : String) (tgt : ℚ) (es : List VisEvent),
        (∀ e ∈ es, e = VisEvent.leave) →
        counterText suffix (counterRun tgt es) = "0" ++ suffix) ∧
    (∀ (tgt : ℚ) (es : List VisEvent), (counterRun tgt es).setCount ≤ 1) ∧
    (∀ (tgt : ℚ) (s : CounterState) (e : VisEvent),
        s.everInView = true → counterStep tgt s e = s) := by
  refine ⟨?_, ?_, ?_⟩
  · intro suffix tgt es hall
    rw [counterRun, counterRun_leaves tgt es counterInit hall]
    rfl
  · intro tgt es
    exact counterRun_setCount_le tgt es counterInit (fun _ => rfl) (by decide)
  · intro tgt s e hv
    cases e with
    | enter => simp [counterStep, hv]
    | leave => rfl

/-- Witness for C3 at concrete inputs. -/
theorem animatedCounter_one_shot_witness :
    counterText "%" (counterRun 92 [VisEvent.leave]) = "0" ++ "%" ∧
    (counterRun 92 [VisEvent.enter, VisEvent.leave, VisEvent.enter]).setCount ≤ 1 :=
  ⟨animatedCounter_one_shot.1 "%" 92 [VisEvent.leave] (by decide),
   animatedCounter_one_shot.2.1 92 [VisEvent.enter, VisEvent.leave, VisEvent.enter]⟩

/-- C4: the animation target of `AnimatedCounter` is, for every string input,
the number parsed from it after removing every character that is not a digit
or a dot, and for every numeric input the input itself; in particular the
target for `"92%"` is 92. -/
theorem numericValue_extraction :
    (∀ v : CounterValue, numericValue v = specTargetOf v) ∧
    (∀ q : ℚ, numericValue (CounterValue.num q) = some q) ∧
    numericValue (CounterValue.str "92%") = some 92 := by
  refine ⟨?_, fun q => rfl, ?_⟩
  · intro v
    cases v with
    | num n => rfl
    | str s =>
        have hfil : ∀ l : List Char,
            l.filter (fun c => c.isDigit || c = '.')
              = l.filter (fun c => decide ¬ (¬ c.isDigit = true ∧ c ≠ '.')) := by
          intro l
          refine List.filter_congr ?_
          intro c _
          by_cases h1 : c.isDigit = true <;> by_cases h2 : c = '.' <;> simp [h1, h2]
        simp only [numericValue, specTargetOf, stripToNumeric, hfil]
  · simp +decide [numericValue, parseFloatNum, stripToNumeric, digitsToNat]

/-- C5: the circular gauge's stroke dash offset equals
`circumference × (1 − value/100)`, the filled arc is strictly proportional to
the percentage (`value/100 × circumference`), a value of 0 gives an offset of
the full circumference (empty ring), and a value of 100 gives offset 0
(full ring).  π is abstract: the identities hold for any value of it. -/
theorem circularMetric_proportional :
    ∀ pi value : ℚ,
      strokeDashoffset pi value = circumference pi * (1 - value / 100) ∧
      filledArc pi value = value / 100 * circumference pi ∧
      strokeDashoffset pi 0 = circumference pi ∧
      strokeDashoffset pi 100 = 0 := by
  intro pi value
  refine ⟨?_, ?_, ?_, ?_⟩ <;>
    simp only [strokeDashoffset, filledArc, circumference, cmRadius] <;> ring

/-- C7: whenever the image reference is absent, or the image's error handler
has run (load failure), `PhotoTile` renders the tone-keyed gradient
placeholder with the procedural texture — never an image region — for every
tone variant and every prior error state. -/
theorem photoTile_fallback :
    ∀ (tone : Tone) (s : PhotoTileState) (src : String),
      photoTileRender none s tone
        = TileRender.placeholder (toneMap tone) placeholderTexture ∧
      photoTileRender (some src) (photoTileOnError s) tone
        = TileRender.placeholder (toneMap tone) placeholderTexture ∧
      (∀ g t, TileRender.placeholder g t ≠ TileRender.image src) := by
  intro tone s src
  refine ⟨rfl, rfl, ?_⟩
  intro g t h
  exact TileRender.noConfusion h

/-- Witness for C7: a missing reference and a failed load both yield the
violet placeholder. -/
theorem photoTile_fallback_witness :
    photoTileRender none photoTileInit Tone.violet
      = TileRender.placeholder (toneMap Tone.violet) placeholderTexture ∧
    photoTileRender (some "/photos/fila-turnos-duplicados.jpg")
        (photoTileOnError photoTileInit) Tone.violet
      = TileRender.placeholder (toneMap Tone.violet) placeholderTexture :=
  ⟨(photoTile_fallback Tone.violet photoTileInit "/photos/fila-turnos-duplicados.jpg").1,
   (photoTile_fallback Tone.violet photoTileInit
      "/photos/fila-turnos-duplicados.jpg").2.1⟩

/-- C9: the theme toggle renders nothing before the client has mounted,
whatever the provider reports; once mounted it renders exactly the three
buttons requesting light, dark and system, of which at most one carries the
active styling. -/
theorem themeToggle_gated_render :
    ∀ theme : Option String,
      themeToggleRender false theme = none ∧
      themeToggleRender true theme = some (themeToggleButtons theme) ∧
      (themeToggleButtons theme).length = 3 ∧
      (themeToggleButtons theme).map ToggleButton.requests
        = ["light", "dark", "system"] ∧
      ((themeToggleButtons theme).countP (fun b => b.active)) ≤ 1 := by
  intro theme
  refine ⟨rfl, rfl, rfl, rfl, ?_⟩
  rcases theme with _ | t
  · decide
  · by_cases h1 : t = "light"
    · subst h1; decide
    · by_cases h2 : t = "dark"
      · subst h2; decide
      · by_cases h3 : t = "system"
        · subst h3; decide
        · simp [themeToggleButtons, List.countP_cons, h1, h2, h3]

/-- C8: a user selection on the demo tabs sets the tab directly and leaves the
mount-installed intervals (and hence the 4000 ms auto-play period) untouched,
and the next tick advances by +1 modulo the tab count from the selected tab;
dot and prev/next selections on the hero-shot and app-shot sliders set their
index directly per their update functions and likewise leave every interval
untouched — indeed no event of the component ever changes the interval list
installed on mount. -/
theorem selection_does_not_touch_timers :
    ∀ (s : LandingState) (t : String), t ∈ demoTabs →
      ((landingStep s (LandingEvent.selectDemoTab t)).demoTab = t ∧
       (landingStep s (LandingEvent.selectDemoTab t)).intervals = s.intervals ∧
       demoTabs.indexOf
           ((landingStep (landingStep s (LandingEvent.selectDemoTab t))
             LandingEvent.demoTabTick).demoTab)
         = (demoTabs.indexOf t + 1) % demoTabs.length) ∧
      (∀ i, (landingStep s (LandingEvent.selectHeroDot i)).heroIndex = i ∧
            (landingStep s (LandingEvent.selectHeroDot i)).intervals = s.intervals) ∧
      ((landingStep s LandingEvent.shotPrevClick).shotIndex = shotPrevFn s.shotIndex ∧
       (landingStep s LandingEvent.shotNextClick).shotIndex = shotNextFn s.shotIndex ∧
       (landingStep s LandingEvent.heroPrevClick).heroIndex = heroPrevFn s.heroIndex ∧
       (landingStep s LandingEvent.heroNextClick).heroIndex = heroNextFn s.heroIndex) ∧
      (∀ es, (landingRun es).intervals = landingInit.intervals) := by
  intro s t ht
  have hstep : ∀ (s' : LandingState) (e : LandingEvent),
      (landingStep s' e).intervals = s'.intervals := by
    intro s' e; cases e <;> rfl
  refine ⟨⟨rfl, rfl, ?_⟩, fun i => ⟨rfl, rfl⟩, ⟨rfl, rfl, rfl, rfl⟩, ?_⟩
  · have hmem : t = "Recepción" ∨ t = "Consultorio" ∨ t = "Dirección" := by
      simpa [demoTabs] using ht
    rcases hmem with h | h | h <;> subst h <;> simp only [landingStep] <;> decide
  · intro es
    rw [landingRun]
    induction es using List.reverseRecOn with
    | nil => rfl
    | append_singleton es e ih => rw [List.foldl_append, List.foldl_cons,
        List.foldl_nil, hstep, ih]

/-- Witness for C8: selecting the third tab, then one tick, lands on the
first tab, with the intervals exactly as installed on mount. -/
theorem selection_does_not_touch_timers_witness :
    (landingStep landingInit (LandingEvent.selectDemoTab "Dirección")).demoTab
      = "Dirección" ∧
    (landingStep landingInit (LandingEvent.selectDemoTab "Dirección")).intervals
      = landingInit.intervals ∧
    demoTabs.indexOf
        ((landingStep (landingStep landingInit (LandingEvent.selectDemoTab "Dirección"))
          LandingEvent.demoTabTick).demoTab)
      = (demoTabs.indexOf "Dirección" + 1) % demoTabs.length :=
  ⟨(selection_does_not_touch_timers landingInit "Dirección" (by decide)).1.1,
   (selection_does_not_touch_timers landingInit "Dirección" (by decide)).1.2.1,
   (selection_does_not_touch_timers landingInit "Dirección" (by decide)).1.2.2⟩

end Zanoo
